import Mathlib

set_option maxRecDepth 20000

namespace PyModel

/-! Shallow embedding of the repository's three Python scripts.

Numbers: Python ints are modelled as `Int`/`Nat` (arbitrary precision, exact,
as in Python). Python floats are IEEE-754 binary64 values; we model a float
by the exact rational value of the double. `toDouble q` is the rational
value of the binary64 double nearest to `q` (round half to even), valid on
the normal range, which covers every value occurring in these scripts.
Arithmetic on doubles is exact rational arithmetic followed by `toDouble`
(the IEEE definition of correctly rounded arithmetic).

Rationals are represented by the executable type `Q` below (an integer
numerator and a positive integer denominator, not necessarily reduced) so
that every operation is plain integer arithmetic and kernel-reducible. -/

/-- An exact rational number: `num / den` with `den > 0`. Representations
are not normalised; all operations below keep the denominator positive. -/
structure Q where
  num : Int
  den : Int
deriving DecidableEq

def qofInt (n : Int) : Q := ⟨n, 1⟩

def qofNat (n : Nat) : Q := ⟨Int.ofNat n, 1⟩

/-- The exact value of the decimal literal `m × 10^(-s)` (e.g. Python
source text `29.99` is `dec 2999 2`). -/
def dec (m : Int) (s : Nat) : Q := ⟨m, Int.ofNat (10 ^ s)⟩

def qadd (a b : Q) : Q := ⟨a.num * b.den + b.num * a.den, a.den * b.den⟩

def qsub (a b : Q) : Q := ⟨a.num * b.den - b.num * a.den, a.den * b.den⟩

def qmul (a b : Q) : Q := ⟨a.num * b.num, a.den * b.den⟩

def qneg (a : Q) : Q := ⟨-a.num, a.den⟩

/-- Division; the result keeps a positive denominator (the divisor must be
nonzero, which every caller below guarantees). -/
def qdiv (a b : Q) : Q :=
  let n := a.num * b.den
  let d := a.den * b.num
  if d < 0 then ⟨-n, -d⟩ else ⟨n, d⟩

def qeq (a b : Q) : Bool := a.num * b.den == b.num * a.den

def qlt (a b : Q) : Bool := a.num * b.den < b.num * a.den

def qle (a b : Q) : Bool := a.num * b.den ≤ b.num * a.den

def qabs (a : Q) : Q := if a.num < 0 then ⟨-a.num, a.den⟩ else a

def qisZero (a : Q) : Bool := a.num == 0

/-- Floor of a rational (denominator positive). -/
def qfloor (a : Q) : Int := Int.fdiv a.num a.den

/-- `2 ^ k` as a rational, for an arbitrary integer `k`. -/
def qpow2 (k : Int) : Q :=
  if 0 ≤ k then ⟨Int.ofNat (2 ^ k.toNat), 1⟩ else ⟨1, Int.ofNat (2 ^ (-k).toNat)⟩

/-- `10 ^ k` as a rational, for an arbitrary integer `k`. -/
def qpow10 (k : Int) : Q :=
  if 0 ≤ k then ⟨Int.ofNat (10 ^ k.toNat), 1⟩ else ⟨1, Int.ofNat (10 ^ (-k).toNat)⟩

/-- Rounds a rational to the nearest integer, ties to even (the IEEE-754
default rounding used by CPython floats and by CPython fixed-point string
formatting of floats). -/
def roundHE (x : Q) : Int :=
  let f := qfloor x
  let r := qsub x (qofInt f)
  if qlt r (dec 5 1) then f
  else if qlt (dec 5 1) r then f + 1
  else if f % 2 = 0 then f else f + 1

/-- Fuel-driven binary exponent: for positive `a`, the integer `e` with
`2^e ≤ a < 2^(e+1)`. Fuel 1200 covers the whole binary64 range. -/
def exp2F : Nat → Q → Int
  | 0, _ => 0
  | fuel + 1, a =>
    if qlt a (qofInt 1) then exp2F fuel (qmul a (qofInt 2)) - 1
    else if qlt a (qofInt 2) then 0
    else exp2F fuel (qdiv a (qofInt 2)) + 1

def exp2 (a : Q) : Int := exp2F 1200 a

/-- Fuel-driven decimal exponent: for positive `a`, the integer `e` with
`10^e ≤ a < 10^(e+1)`. -/
def exp10F : Nat → Q → Int
  | 0, _ => 0
  | fuel + 1, a =>
    if qlt a (qofInt 1) then exp10F fuel (qmul a (qofInt 10)) - 1
    else if qlt a (qofInt 10) then 0
    else exp10F fuel (qdiv a (qofInt 10)) + 1

def exp10 (a : Q) : Int := exp10F 400 a

/-- The exact rational value of the IEEE-754 binary64 double nearest to `q`
(round half to even, 53-bit significand; normal range only, which covers
all values in these scripts). -/
def toDouble (q : Q) : Q :=
  if qisZero q then qofInt 0
  else
    let s : Int := if qlt q (qofInt 0) then -1 else 1
    let a := qabs q
    let e := exp2 a
    qmul (qofInt (s * roundHE (qmul a (qpow2 (52 - e))))) (qpow2 (e - 52))

/-- Correctly rounded double addition (Python float `+`). -/
def fadd (x y : Q) : Q := toDouble (qadd x y)

/-- Correctly rounded double multiplication (Python float `*`). -/
def fmul (x y : Q) : Q := toDouble (qmul x y)

/-- Python `round(x, nd)` on a float: correctly round the exact value of
the double to `nd` decimal places, then take the nearest double. -/
def pyRound (nd : Nat) (x : Q) : Q :=
  toDouble (qdiv (qofInt (roundHE (qmul x (qpow10 (Int.ofNat nd))))) (qpow10 (Int.ofNat nd)))

/-- Python `int(x)` on a float: truncation toward zero. -/
def truncInt (x : Q) : Int :=
  if qle (qofInt 0) x then qfloor x else -(qfloor (qneg x))

/-- A string of `n` copies of character `c` (Python `c * n`). -/
def repChar (c : Char) (n : Nat) : String := String.mk (List.replicate n c)

/-- Round `a` to `n` significant decimal digits, where `e` is the decimal
exponent of `a`. -/
def sigRound (a : Q) (e : Int) (n : Nat) : Q :=
  let k := e - Int.ofNat n + 1
  qmul (qofInt (roundHE (qdiv a (qpow10 k)))) (qpow10 k)

/-- The least number of significant decimal digits that round-trips through
the nearest-double map (17 always suffices for binary64). -/
def shortestN (a : Q) (e : Int) : Nat :=
  match (((List.range 17).map (fun j => j + 1)).find?
      (fun n => qeq (toDouble (sigRound a e n)) a)) with
  | some n => n
  | none => 17

/-- Python `repr` of a float: the shortest decimal string that round-trips
to the same double, rendered in fixed-point notation (which CPython uses
for all decimal exponents occurring in these scripts). -/
def floatRepr (x : Q) : String :=
  if qisZero x then "0.0"
  else
    let sgn := if qlt x (qofInt 0) then "-" else ""
    let a := qabs x
    let e := exp10 a
    let n := shortestN a e
    let k := e - Int.ofNat n + 1
    let m := roundHE (qdiv a (qpow10 k))
    let ds := toString m.toNat
    sgn ++
      (if 0 ≤ k then ds ++ repChar '0' k.toNat ++ ".0"
       else
        let kk := (-k).toNat
        if kk < ds.length then
          ds.take (ds.length - kk) ++ "." ++ ds.drop (ds.length - kk)
        else "0." ++ repChar '0' (kk - ds.length) ++ ds)

/-- Python fixed-point format `.{prec}f` applied to the exact value of a
double (CPython formats the exact binary value, correctly rounded). -/
def fmtFixed (prec : Nat) (x : Q) : String :=
  let sgn := if qlt x (qofInt 0) then "-" else ""
  let n := (roundHE (qmul (qabs x) (qpow10 (Int.ofNat prec)))).toNat
  let s := toString n
  let s := if s.length < prec + 1 then repChar '0' (prec + 1 - s.length) ++ s else s
  sgn ++ s.take (s.length - prec) ++ "." ++ s.drop (s.length - prec)

/-- A single apostrophe character as a string (used by Python `repr` of
strings and by lines that quote values). -/
def sq : String := String.singleton (Char.ofNat 39)

/-- A left curly brace as a string (appears in the `repr` of a dict). -/
def lcurly : String := String.singleton (Char.ofNat 123)

/-- A right curly brace as a string. -/
def rcurly : String := String.singleton (Char.ofNat 125)

/-- Python format `{s:>w}` with fill character `fill`: right-align `s` in a
field of width `w` (no truncation if `s` is longer). -/
def padLeft (fill : Char) (w : Nat) (s : String) : String :=
  repChar fill (w - s.length) ++ s

/-- Python format `{s:<w}` with fill character `fill`: left-align. -/
def padRight (fill : Char) (w : Nat) (s : String) : String :=
  s ++ repChar fill (w - s.length)

/-- Python format `{s:^w}` with fill character `fill`: center, the extra
fill character (if any) going to the right. -/
def padCenter (fill : Char) (w : Nat) (s : String) : String :=
  let pad := w - s.length
  let left := pad / 2
  repChar fill left ++ s ++ repChar fill (pad - left)

/-- Splits a reversed digit list into groups of three (helper for the
thousands separator of Python `,` formats). -/
def group3 : List Char → List (List Char)
  | a :: b :: c :: d :: rest => [a, b, c] :: group3 (d :: rest)
  | l => [l]

/-- Inserts `,` thousands separators into a string of digits. -/
def groupThousands (s : String) : String :=
  String.mk (((group3 s.data.reverse).intersperse [',']).flatten.reverse)

/-- Python format `,.{prec}f`: fixed point with thousands separators. -/
def fmtComma (prec : Nat) (x : Q) : String :=
  let s := fmtFixed prec x
  let sgn := if qlt x (qofInt 0) then "-" else ""
  let body := if qlt x (qofInt 0) then s.drop 1 else s
  let ip := body.take (body.length - (prec + 1))
  let fp := body.drop (body.length - (prec + 1))
  sgn ++ groupThousands ip ++ fp

/-- Python format `{n:,}` on an int. -/
def intComma (n : Int) : String :=
  (if n < 0 then "-" else "") ++ groupThousands (toString n.toNat)

/-- Python format `.{prec}%`: multiply by 100 (a float multiplication) and
format fixed point with a trailing percent sign. -/
def fmtPercent (prec : Nat) (x : Q) : String :=
  fmtFixed prec (fmul x (qofInt 100)) ++ "%"

/-- Python format `.{prec}e`: scientific notation with an always-signed,
at-least-two-digit exponent. -/
def fmtSci (prec : Nat) (x : Q) : String :=
  let sgn := if qlt x (qofInt 0) then "-" else ""
  let a := qabs x
  let e := exp10 a
  let m := roundHE (qmul (qdiv a (qpow10 e)) (qofNat (10 ^ prec)))
  let bump : Bool := m.toNat == 10 ^ (prec + 1)
  let m := if bump then m / 10 else m
  let e := if bump then e + 1 else e
  let ds := toString m.toNat
  let mant := ds.take 1 ++ "." ++ ds.drop 1
  let es := if e < 0 then "-" else "+"
  let ee := toString (if e < 0 then (-e).toNat else e.toNat)
  let ee := if ee.length < 2 then repChar '0' (2 - ee.length) ++ ee else ee
  sgn ++ mant ++ "e" ++ es ++ ee

/-- Python format `{n:0wd}`: zero-padded decimal. -/
def zeroPad (w : Nat) (n : Nat) : String := padLeft '0' w (toString n)

/-- Python format `{n:+d}`: always show the sign. -/
def plusSignFmt (n : Int) : String :=
  if 0 ≤ n then "+" ++ toString n.toNat else toString n

/-- Python format `{n: d}`: a leading space for non-negative numbers. -/
def signSpaceFmt (n : Int) : String :=
  if 0 ≤ n then " " ++ toString n.toNat else toString n

/-- The digit character for value `d` (lowercase above 9). -/
def digitChar (upper : Bool) (d : Nat) : Char :=
  if d < 10 then Char.ofNat (48 + d) else Char.ofNat ((if upper then 55 else 87) + d)

/-- Fuel-driven base conversion, most significant digit first. -/
def natToBaseF (fuel b : Nat) (upper : Bool) (n : Nat) : List Char :=
  match fuel with
  | 0 => []
  | fuel + 1 =>
    if n < b then [digitChar upper n]
    else natToBaseF fuel b upper (n / b) ++ [digitChar upper (n % b)]

/-- The digits of `n` in base `b` (Python formats `b`, `o`, `x`, `X`). -/
def natToBase (b : Nat) (upper : Bool) (n : Nat) : String :=
  String.mk (natToBaseF 64 b upper n)

/-- Python `bin(n)` for non-negative `n`. -/
def pyBin (n : Nat) : String := "0b" ++ natToBase 2 false n

/-- Python `oct(n)` for non-negative `n`. -/
def pyOct (n : Nat) : String := "0o" ++ natToBase 8 false n

/-- Python `hex(n)` for non-negative `n`. -/
def pyHex (n : Nat) : String := "0x" ++ natToBase 16 false n

/-- Python `str`/`repr` of a bool. -/
def pyBoolStr (b : Bool) : String := if b then "True" else "False"

/-- Python `str.upper` (ASCII, which covers the strings used). -/
def pyUpper (s : String) : String := s.map Char.toUpper

/-- Python `str.lower` (ASCII, which covers the strings used). -/
def pyLower (s : String) : String := s.map Char.toLower

/-- Python slice `s[:j]` (clipped to the bounds of `s`; a negative `j`
counts from the end). -/
def pySliceTo (j : Int) (s : String) : String :=
  let n := s.length
  let stop := if j < 0 then (Int.ofNat n + j).toNat else min j.toNat n
  String.mk (s.data.take stop)

/-- Python slice `s[i:]` (clipped to the bounds of `s`; a negative `i`
counts from the end). -/
def pySliceFrom (i : Int) (s : String) : String :=
  let n := s.length
  let start := if i < 0 then (Int.ofNat n + i).toNat else min i.toNat n
  String.mk (s.data.drop start)

/-- Python slice `s[::-1]`: the reversed string. -/
def pyReverse (s : String) : String := String.mk s.data.reverse

/-- The numeric value of a decimal digit character, if it is one. -/
def digitVal? (c : Char) : Option Nat :=
  if 48 ≤ c.toNat ∧ c.toNat ≤ 57 then some (c.toNat - 48) else none

/-- Parses a nonempty all-digit character list as a natural number. -/
def parseNatList? (l : List Char) : Option Nat :=
  match l with
  | [] => none
  | _ => l.foldl (fun acc c => acc.bind (fun a => (digitVal? c).map (fun d => a * 10 + d))) (some 0)

/-- Python `int(s)` on a decimal string (an optional sign followed by
digits; anything else raises `ValueError`, modelled as `none`). -/
def pyParseInt? (s : String) : Option Int :=
  match s.data with
  | [] => none
  | c :: rest =>
    if c = '-' then (parseNatList? rest).map (fun n => -(Int.ofNat n))
    else if c = '+' then (parseNatList? rest).map Int.ofNat
    else (parseNatList? (c :: rest)).map Int.ofNat

/-- Splits a character list at the occurrences of a dot. -/
def splitDot : List Char → List (List Char)
  | [] => [[]]
  | c :: rest =>
    if c = '.' then [] :: splitDot rest
    else
      match splitDot rest with
      | h :: t => (c :: h) :: t
      | [] => [[c]]

/-- Python `float(s)` on a plain decimal string `a.b` or `a`: the nearest
double to the decimal value (failure modelled as `none`). -/
def pyParseFloat? (s : String) : Option Q :=
  match splitDot s.data with
  | [i] => (parseNatList? i).map (fun n => toDouble (qofNat n))
  | [i, f] =>
    (parseNatList? i).bind (fun ip =>
      (parseNatList? f).map (fun fp =>
        toDouble (qadd (qofNat ip) (dec (Int.ofNat fp) f.length))))
  | _ => none

/-- A `decimal.Decimal` value: coefficient and decimal scale (exponent
`-scale`). The scripts only use non-negative Decimals. -/
structure Dec where
  coeff : Int
  scale : Nat
deriving DecidableEq

/-- `Decimal(s)` on a plain decimal string (failure modelled as `none`). -/
def parseDec? (s : String) : Option Dec :=
  match splitDot s.data with
  | [i] => (parseNatList? i).map (fun n => ⟨Int.ofNat n, 0⟩)
  | [i, f] =>
    (parseNatList? i).bind (fun ip =>
      (parseNatList? f).map (fun fp =>
        ⟨Int.ofNat (ip * 10 ^ f.length + fp), f.length⟩))
  | _ => none

/-- Decimal addition: exact, at the larger of the two scales. -/
def decAdd (a b : Dec) : Dec :=
  let s := max a.scale b.scale
  ⟨a.coeff * Int.ofNat (10 ^ (s - a.scale)) + b.coeff * Int.ofNat (10 ^ (s - b.scale)), s⟩

/-- The exact rational value of a Decimal. -/
def decVal (d : Dec) : Q := dec d.coeff d.scale

/-- Decimal numeric equality (compares values, like Python `==`). -/
def decEqb (a b : Dec) : Bool := qeq (decVal a) (decVal b)

/-- `str` of a (non-negative) Decimal, keeping the stored scale. -/
def decRepr (d : Dec) : String :=
  if d.scale = 0 then toString d.coeff.toNat
  else
    let s := toString d.coeff.toNat
    let s := if s.length < d.scale + 1 then repChar '0' (d.scale + 1 - s.length) ++ s else s
    s.take (s.length - d.scale) ++ "." ++ s.drop (s.length - d.scale)

/-- A runtime value of the dynamic language, as used by the truthiness
demo: ints, floats, strings, lists, string-keyed dicts, None and bools. -/
inductive PyValue where
  | VInt : Int → PyValue
  | VFloat : Q → PyValue
  | VStr : String → PyValue
  | VList : List PyValue → PyValue
  | VDict : List (String × PyValue) → PyValue
  | VNone : PyValue
  | VBool : Bool → PyValue

/-- Python truthiness (`bool(v)`): zero numbers, empty containers, the
empty string, `None` and `False` are falsy; everything else is truthy. -/
def pyTruthy : PyValue → Bool
  | .VInt n => n != 0
  | .VFloat q => !(qisZero q)
  | .VStr s => s.length != 0
  | .VList l => !l.isEmpty
  | .VDict d => !d.isEmpty
  | .VNone => false
  | .VBool b => b

/-- Python `repr`, fuel-driven for nested containers (fuel 10 far exceeds
the nesting depth used anywhere in the scripts). -/
def pyReprF : Nat → PyValue → String
  | 0, _ => ""
  | fuel + 1, v =>
    match v with
    | .VInt n => toString n
    | .VFloat q => floatRepr q
    | .VStr s => sq ++ s ++ sq
    | .VList l => "[" ++ String.intercalate ", " (l.map (pyReprF fuel)) ++ "]"
    | .VDict d =>
      lcurly ++
        String.intercalate ", "
          (d.map (fun p => sq ++ p.1 ++ sq ++ ": " ++ pyReprF fuel p.2)) ++ rcurly
    | .VNone => "None"
    | .VBool b => pyBoolStr b

def pyRepr (v : PyValue) : String := pyReprF 10 v

/-- A wall-clock instant as observed through `datetime.now()`: the only
ambient input any of the scripts reads. -/
structure DT where
  year : Nat
  month : Nat
  day : Nat
  hour : Nat
  minute : Nat
  second : Nat

def pad2 (n : Nat) : String := if n < 10 then "0" ++ toString n else toString n

def pad4 (n : Nat) : String := padLeft '0' 4 (toString n)

/-- strftime `%B`: the full month name. -/
def monthName (m : Nat) : String :=
  ["January", "February", "March", "April", "May", "June", "July",
   "August", "September", "October", "November", "December"].getD (m - 1) ""

/-- Day of week by Sakamoto's method: 0 = Sunday. -/
def dayOfWeek (y m d : Nat) : Nat :=
  let t := [0, 3, 2, 5, 0, 3, 5, 1, 4, 6, 2, 4]
  let y := if m < 3 then y - 1 else y
  (y + y / 4 - y / 100 + y / 400 + t.getD (m - 1) 0 + d) % 7

/-- strftime `%A`: the full weekday name. -/
def weekdayName (t : DT) : String :=
  ["Sunday", "Monday", "Tuesday", "Wednesday", "Thursday", "Friday",
   "Saturday"].getD (dayOfWeek t.year t.month t.day) ""

/-- strftime `%Y-%m-%d %H:%M:%S`. -/
def fmtDtFull (t : DT) : String :=
  pad4 t.year ++ "-" ++ pad2 t.month ++ "-" ++ pad2 t.day ++ " " ++
    pad2 t.hour ++ ":" ++ pad2 t.minute ++ ":" ++ pad2 t.second

/-- strftime `%Y-%m-%d`. -/
def fmtDtDate (t : DT) : String :=
  pad4 t.year ++ "-" ++ pad2 t.month ++ "-" ++ pad2 t.day

/-- strftime `%H:%M:%S`. -/
def fmtDtTime (t : DT) : String :=
  pad2 t.hour ++ ":" ++ pad2 t.minute ++ ":" ++ pad2 t.second

/-- strftime `%B %d, %Y`. -/
def fmtDtCustom (t : DT) : String :=
  monthName t.month ++ " " ++ pad2 t.day ++ ", " ++ pad4 t.year

/-- Indexing a Python list (`items[i]`); out of range raises `IndexError`,
modelled as `none`. -/
def pyIndex (l : List α) (i : Nat) : Option α := l.get? i

/-- The generic function `first` from `types_demo.py`: returns `items[0]`. -/
def first (items : List α) : Option α := pyIndex items 0

/-- The generic container `Box` from `types_demo.py`. -/
structure Box (T : Type) where
  item : T

/-- `Box.get`: returns the stored item. -/
def Box.get (b : Box T) : T := b.item

/-- `Box.__repr__`, given a `repr` function for the element type (Python
resolves it dynamically). -/
def Box.reprStr (f : T → String) (b : Box T) : String := "Box(" ++ f b.item ++ ")"

/-- Python `a / b` on ints: true division producing the nearest double;
division by zero raises `ZeroDivisionError`, modelled as `none`. -/
def pyTrueDivInt (a b : Int) : Option Q :=
  if b = 0 then none else some (toDouble (qdiv (qofInt a) (qofInt b)))

/-- Python `a // b` on ints: floor division; `none` on a zero divisor. -/
def pyFloorDivInt (a b : Int) : Option Int :=
  if b = 0 then none else some (Int.fdiv a b)

/-- Python `a % b` on ints: remainder with the sign of the divisor;
`none` on a zero divisor. -/
def pyModInt (a b : Int) : Option Int :=
  if b = 0 then none else some (Int.fmod a b)

end PyModel

open PyModel

/-! ### `01_getting_started/hello.py`

Output is modelled as a list of print chunks: one element per `print`
call, holding the exact printed text (a leading `\n` inside a chunk is the
blank line the script prints before it). The interpreter version reported
on the last line is ambient input, so `main` takes it as parameters. -/

namespace Hello

/-- `greet`: returns the greeting message. -/
def greet (name : String) : String := "Hello, " ++ name ++ "!"

/-- `main` of `hello.py`. -/
def main (major minor : Nat) : List String :=
  ["Hello, World!",
   "Welcome to Python 3.14!",
   greet "Python Learner",
   "2 + 2 = " ++ toString (2 + 2),
   "\nYou are using Python " ++ toString major ++ "." ++ toString minor]

end Hello

/-! ### `02_basic_syntax/types_demo.py`

Each topic function takes the ambient wall-clock instant `t` (none of them
reads it; the parameter makes the no-clock-dependence hyperproperty a
statement rather than a typing accident). Functions containing operations
that can raise (division, parsing, indexing) return `Option`, with `none`
for an uncaught exception. -/

namespace TypesDemo

def eq50 : String := repChar '=' 50

/-- The large integer `huge = 2**100` of `demo_integers` (Python ints are
arbitrary precision, so this is exact). -/
def huge : Nat := 2 ^ 100

/-- `demo_integers`. -/
def demo_integers (_t : DT) : Option (List String) :=
  let a : Int := 15
  let b : Int := 4
  (pyTrueDivInt a b).bind fun dv =>
  (pyFloorDivInt a b).bind fun fd =>
  (pyModInt a b).bind fun md =>
  let binary : Int := 0b1010
  let octal : Int := 0o12
  let hexadec : Int := 0xFF
  some [eq50,
    "INTEGER DEMONSTRATION",
    eq50,
    "\na = " ++ toString a ++ ", b = " ++ toString b,
    "Addition: " ++ toString a ++ " + " ++ toString b ++ " = " ++ toString (a + b),
    "Subtraction: " ++ toString a ++ " - " ++ toString b ++ " = " ++ toString (a - b),
    "Multiplication: " ++ toString a ++ " * " ++ toString b ++ " = " ++ toString (a * b),
    "Division: " ++ toString a ++ " / " ++ toString b ++ " = " ++ floatRepr dv,
    "Floor division: " ++ toString a ++ " // " ++ toString b ++ " = " ++ toString fd,
    "Modulo: " ++ toString a ++ " % " ++ toString b ++ " = " ++ toString md,
    "Exponentiation: " ++ toString a ++ " ** " ++ toString b ++ " = " ++ toString (a ^ (4 : Nat)),
    "\n2^100 = " ++ toString huge,
    "Length: " ++ toString (toString huge).length ++ " digits",
    "\nBinary 0b1010 = " ++ toString binary,
    "Octal 0o12 = " ++ toString octal,
    "Hexadecimal 0xFF = " ++ toString hexadec]

/-- `demo_floats`. The chunk `Expected 0.3? ...` compares the double sum
with the double nearest `0.3`, and the Decimal section uses exact decimal
arithmetic, as `decimal.Decimal` does. -/
def demo_floats (_t : DT) : Option (List String) :=
  let pi := toDouble (dec 314159 5)
  let e := toDouble (dec 271828 5)
  let result := fadd (toDouble (dec 1 1)) (toDouble (dec 2 1))
  (parseDec? "0.1").bind fun d1 =>
  (parseDec? "0.2").bind fun d2 =>
  (parseDec? "0.3").bind fun d3 =>
  some ["\n" ++ eq50,
    "FLOAT DEMONSTRATION",
    eq50,
    "\nπ ≈ " ++ floatRepr pi,
    "e ≈ " ++ floatRepr e,
    "\n0.1 + 0.2 = " ++ floatRepr result,
    "Expected 0.3? " ++ pyBoolStr (qeq result (toDouble (dec 3 1))),
    "Rounded: " ++ floatRepr (pyRound 1 result),
    "\nUsing Decimal: " ++ decRepr d1 ++ " + " ++ decRepr d2 ++ " = " ++ decRepr (decAdd d1 d2),
    "Exact? " ++ pyBoolStr (decEqb (decAdd d1 d2) d3)]

/-- `demo_strings`. -/
def demo_strings (_t : DT) : List String :=
  let text := "Python Programming"
  let name := "Alice"
  let age : Int := 30
  let value := toDouble (dec 12345678 4)
  ["\n" ++ eq50,
   "STRING DEMONSTRATION",
   eq50,
   "\nOriginal: " ++ text,
   "Length: " ++ toString text.length,
   "Uppercase: " ++ pyUpper text,
   "Lowercase: " ++ pyLower text,
   "First 6 chars: " ++ pySliceTo 6 text,
   "Last 11 chars: " ++ pySliceFrom (-11) text,
   "Reversed: " ++ pyReverse text,
   "\n--- String Formatting ---",
   "Hello, " ++ name ++ "! You are " ++ toString age ++ " years old.",
   "Next year: " ++ name ++ " will be " ++ toString (age + 1),
   "\n--- Number Formatting ---",
   "Original: " ++ floatRepr value,
   "2 decimals: " ++ fmtFixed 2 value,
   "With commas: " ++ fmtComma 2 value,
   "Percentage: " ++ fmtPercent 1 (toDouble (dec 755 3))]

/-- The `falsy_values` list of `demo_booleans`. -/
def falsyValues : List PyValue :=
  [.VInt 0, .VFloat (qofInt 0), .VStr "", .VList [], .VDict [], .VNone, .VBool false]

/-- The `truthy_values` list of `demo_booleans`. -/
def truthyValues : List PyValue :=
  [.VInt 1, .VStr "text", .VList [.VInt 1], .VDict [("a", .VInt 1)], .VBool true]

/-- `demo_booleans`. -/
def demo_booleans (_t : DT) : List String :=
  let x : Int := 5
  let y : Int := 10
  ["\n" ++ eq50,
   "BOOLEAN DEMONSTRATION",
   eq50,
   "\nTrue and False = " ++ pyBoolStr (true && false),
   "True or False = " ++ pyBoolStr (true || false),
   "not True = " ++ pyBoolStr (!true),
   "\n" ++ toString x ++ " == " ++ toString y ++ " = " ++ pyBoolStr (x == y),
   toString x ++ " < " ++ toString y ++ " = " ++ pyBoolStr (decide (x < y)),
   toString x ++ " != " ++ toString y ++ " = " ++ pyBoolStr (x != y),
   "\n--- Truthiness Tests ---"]
  ++ falsyValues.map (fun v => padRight ' ' 10 (pyRepr v) ++ " is falsy")
  ++ [""]
  ++ truthyValues.map (fun v => padRight ' ' 10 (pyRepr v) ++ " is truthy")

/-- `demo_type_conversion`. -/
def demo_type_conversion (_t : DT) : Option (List String) :=
  let str_int := "42"
  let str_float := "3.14"
  (pyParseInt? str_int).bind fun iv =>
  (pyParseFloat? str_float).bind fun fv =>
  let num : Int := 100
  let f := toDouble (dec 37 1)
  some ["\n" ++ eq50,
    "TYPE CONVERSION DEMONSTRATION",
    eq50,
    "\nString " ++ sq ++ str_int ++ sq ++ " to int: " ++ toString iv,
    "String " ++ sq ++ str_float ++ sq ++ " to float: " ++ floatRepr fv,
    "\nInt " ++ toString num ++ " to string: " ++ sq ++ toString num ++ sq,
    "\nFloat " ++ floatRepr f ++ " to int: " ++ toString (truncInt f) ++ " (truncates)",
    "\nType of " ++ toString num ++ ": <class " ++ sq ++ "int" ++ sq ++ ">",
    "Is " ++ toString num ++ " an int? " ++ pyBoolStr true]

/-- `demo_generics`. `first` and `Box` are defined in the model core; the
two `repr` renderings pass the element type's `repr` explicitly, which is
what Python's dynamic dispatch of `!r` does. -/
def demo_generics (_t : DT) : Option (List String) :=
  let numbers : List Int := [1, 2, 3]
  let words : List String := ["hello", "world"]
  (first numbers).bind fun fn =>
  (first words).bind fun fw =>
  let int_box : Box Int := ⟨42⟩
  let str_box : Box String := ⟨"Python"⟩
  some ["\n" ++ eq50,
    "GENERIC TYPES DEMONSTRATION (Python 3.14)",
    eq50,
    "\nFirst number: " ++ toString fn,
    "First word: " ++ fw,
    "\nInteger box: " ++ int_box.reprStr (fun n => toString n),
    "String box: " ++ str_box.reprStr (fun s => sq ++ s ++ sq),
    "Get value: " ++ toString int_box.get]

/-- `main` of `types_demo.py`: the banner, the six demos in source order,
and the footer. The `bind` chain mirrors the fact that an uncaught
exception in one demo would abort the script before the next. -/
def main (t : DT) : Option (List String) :=
  (demo_integers t).bind fun l1 =>
  (demo_floats t).bind fun l2 =>
  let l3 := demo_strings t
  let l4 := demo_booleans t
  (demo_type_conversion t).bind fun l5 =>
  (demo_generics t).bind fun l6 =>
  some (["\n",
    "╔" ++ repChar '═' 48 ++ "╗",
    "║" ++ repChar ' ' 10 ++ "PYTHON TYPES DEMONSTRATION" ++ repChar ' ' 12 ++ "║",
    "╚" ++ repChar '═' 48 ++ "╝"]
    ++ l1 ++ l2 ++ l3 ++ l4 ++ l5 ++ l6
    ++ ["\n" ++ eq50, "DEMONSTRATION COMPLETE", eq50 ++ "\n"])

end TypesDemo

/-! ### `02_basic_syntax/string_formatting.py`

Topic functions again take the wall-clock instant `t`; only
`advanced_formatting` reads it (for its five datetime chunks). None of the
operations here can raise, so these functions are total. -/

namespace StrFmt

def eq60 : String := repChar '=' 60

/-- `basic_formatting`. -/
def basic_formatting (_t : DT) : List String :=
  let name := "Alice"
  let age : Int := 30
  let city := "New York"
  [eq60,
   "BASIC F-STRING FORMATTING",
   eq60,
   "\nName: " ++ name,
   "Age: " ++ toString age,
   "City: " ++ city,
   "Full info: " ++ name ++ " is " ++ toString age ++ " years old and lives in " ++ city,
   "\nNext year " ++ name ++ " will be " ++ toString (age + 1),
   "Uppercase name: " ++ pyUpper name,
   "Name length: " ++ toString name.length]

/-- `number_formatting`. -/
def number_formatting (_t : DT) : List String :=
  let pi := toDouble (dec 314159265359 11)
  let large_num := toDouble (dec 123456789 2)
  let percentage := toDouble (dec 755 3)
  let num : Nat := 42
  ["\n" ++ eq60,
   "NUMBER FORMATTING",
   eq60,
   "\n--- Decimal Places ---",
   "Pi (original): " ++ floatRepr pi,
   "Pi (2 decimals): " ++ fmtFixed 2 pi,
   "Pi (4 decimals): " ++ fmtFixed 4 pi,
   "Pi (6 decimals): " ++ fmtFixed 6 pi,
   "\n--- Thousands Separator ---",
   "Large number: " ++ fmtComma 2 large_num,
   "As integer: " ++ intComma (truncInt large_num),
   "\n--- Percentage ---",
   "Percentage: " ++ fmtPercent 1 percentage,
   "Percentage (2 decimals): " ++ fmtPercent 2 percentage,
   "\n--- Scientific Notation ---",
   "Scientific (2 decimals): " ++ fmtSci 2 large_num,
   "Scientific (4 decimals): " ++ fmtSci 4 large_num,
   "\n--- Zero Padding ---",
   "Zero-padded (5 digits): " ++ zeroPad 5 num,
   "Zero-padded (8 digits): " ++ zeroPad 8 num,
   "\n--- Sign Display ---",
   "Always show sign: " ++ plusSignFmt 42,
   "Always show sign: " ++ plusSignFmt (-42),
   "Space for positive: " ++ signSpaceFmt 42,
   "Space for positive: " ++ signSpaceFmt (-42)]

/-- The `items` table of `alignment_formatting`. -/
def alignItems : List (String × Int × Q) :=
  [("Apple", 10, toDouble (dec 150 2)),
   ("Banana", 25, toDouble (dec 75 2)),
   ("Orange", 15, toDouble (dec 125 2))]

/-- `alignment_formatting`. -/
def alignment_formatting (_t : DT) : List String :=
  let text := "Python"
  let width := 20
  ["\n" ++ eq60,
   "TEXT ALIGNMENT",
   eq60,
   "\n--- Basic Alignment ---",
   "Left:   " ++ sq ++ padRight ' ' width text ++ sq,
   "Right:  " ++ sq ++ padLeft ' ' width text ++ sq,
   "Center: " ++ sq ++ padCenter ' ' width text ++ sq,
   "\n--- Alignment with Fill Character ---",
   "Fill with dots:   " ++ sq ++ padRight '.' width text ++ sq,
   "Fill with dashes: " ++ sq ++ padLeft '-' width text ++ sq,
   "Fill with stars:  " ++ sq ++ padCenter '*' width text ++ sq,
   "\n--- Table-like Formatting ---",
   padRight ' ' 12 "Item" ++ " " ++ padLeft ' ' 6 "Qty" ++ " " ++ padLeft ' ' 8 "Price",
   repChar '-' 28]
  ++ alignItems.map (fun r =>
      padRight ' ' 12 r.1 ++ " " ++ padLeft ' ' 6 (toString r.2.1) ++ " $" ++
        padLeft ' ' 7 (fmtFixed 2 r.2.2))

/-- `advanced_formatting`: the only function whose output depends on the
wall clock, in exactly its five datetime chunks. -/
def advanced_formatting (t : DT) : List String :=
  let value := toDouble (dec 123456789 6)
  ["\n" ++ eq60,
   "ADVANCED FORMATTING",
   eq60,
   "\n--- Debug Formatting (shows variable name) ---",
   "x=" ++ toString (42 : Int),
   "y=" ++ toString (100 : Int),
   "x + y=" ++ toString (42 + 100 : Int),
   "\n--- Nested Formatting ---",
   "Value with " ++ toString (2 : Nat) ++ " decimals: " ++ fmtFixed 2 value,
   "Value with " ++ toString (4 : Nat) ++ " decimals: " ++ fmtFixed 4 value,
   "\n--- Datetime Formatting ---",
   "Full: " ++ fmtDtFull t,
   "Date only: " ++ fmtDtDate t,
   "Time only: " ++ fmtDtTime t,
   "Custom: " ++ fmtDtCustom t,
   "Weekday: " ++ weekdayName t,
   "\n--- Number Base Formatting ---",
   "Decimal: " ++ toString (42 : Nat),
   "Binary: " ++ natToBase 2 false 42 ++ " (or " ++ pyBin 42 ++ ")",
   "Octal: " ++ natToBase 8 false 42 ++ " (or " ++ pyOct 42 ++ ")",
   "Hex (lowercase): " ++ natToBase 16 false 42 ++ " (or " ++ pyHex 42 ++ ")",
   "Hex (uppercase): " ++ natToBase 16 true 42]

/-- The invoice `items` rows of `practical_examples`. -/
def invoiceItems : List (String × Int × Q) :=
  [("Python Programming Book", 2, toDouble (dec 2999 2)),
   ("Code Editor License", 1, toDouble (dec 4999 2)),
   ("Online Course", 1, toDouble (dec 8999 2))]

/-- The running `subtotal` of the invoice loop: starts at the int `0` and
accumulates `qty * price` with float arithmetic. -/
def invoiceSubtotal : Q :=
  invoiceItems.foldl (fun acc r => fadd acc (fmul (qofInt r.2.1) r.2.2)) (qofInt 0)

/-- `tax = subtotal * 0.085` (float arithmetic). -/
def invoiceTax : Q := fmul invoiceSubtotal (toDouble (dec 85 3))

/-- `total = subtotal + tax` (float arithmetic). -/
def invoiceTotal : Q := fadd invoiceSubtotal invoiceTax

/-- The percentages `range(0, 101, 10)` of the progress-bar loop. -/
def progressPercents : List Nat := (List.range 11).map (fun j => j * 10)

/-- The bar of one progress-bar iteration: `i // 2` filled blocks then
`50 - i // 2` unfilled blocks. -/
def progressBar (i : Nat) : String :=
  repChar '█' (i / 2) ++ repChar '░' (50 - i / 2)

/-- The text one progress-bar iteration emits (`print(..., end="")`): a
carriage return, the bracketed bar, and the percentage right-aligned in a
three-character field. -/
def progressSegment (i : Nat) : String :=
  "\r[" ++ progressBar i ++ "] " ++ padLeft ' ' 3 (toString i) ++ "%"

/-- The `stocks` rows of `practical_examples`. -/
def stocks : List (String × Q × Q) :=
  [("AAPL", toDouble (dec 15025 2), toDouble (dec 25 1)),
   ("GOOGL", toDouble (dec 280050 2), toDouble (dec (-13) 1)),
   ("TSLA", toDouble (dec 72575 2), toDouble (dec 58 1))]

/-- `practical_examples`. The progress-bar loop prints its eleven segments
with `end=""` onto a single output line, so they form one chunk here, and
the bare `print()` after the loop is the empty chunk that follows. -/
def practical_examples (_t : DT) : List String :=
  ["\n" ++ eq60,
   "PRACTICAL EXAMPLES",
   eq60,
   "\n--- Invoice ---",
   padRight ' ' 25 "Item" ++ " " ++ padLeft ' ' 5 "Qty" ++ " " ++
     padLeft ' ' 10 "Price" ++ " " ++ padLeft ' ' 10 "Total",
   repChar '-' 52]
  ++ invoiceItems.map (fun r =>
      padRight ' ' 25 r.1 ++ " " ++ padLeft ' ' 5 (toString r.2.1) ++ " $" ++
        padLeft ' ' 9 (fmtFixed 2 r.2.2) ++ " $" ++
        padLeft ' ' 9 (fmtFixed 2 (fmul (qofInt r.2.1) r.2.2)))
  ++ [repChar '-' 52,
      padRight ' ' 42 "Subtotal:" ++ " $" ++ padLeft ' ' 9 (fmtFixed 2 invoiceSubtotal),
      padRight ' ' 42 "Tax (8.5%):" ++ " $" ++ padLeft ' ' 9 (fmtFixed 2 invoiceTax),
      padRight ' ' 42 "Total:" ++ " $" ++ padLeft ' ' 9 (fmtFixed 2 invoiceTotal),
      "\n--- Progress Bar ---",
      String.join (progressPercents.map progressSegment),
      "",
      "\n--- Stock Prices ---",
      padRight ' ' 8 "Symbol" ++ " " ++ padLeft ' ' 10 "Price" ++ " " ++ padLeft ' ' 10 "Change",
      repChar '-' 30]
  ++ stocks.map (fun r =>
      padRight ' ' 8 r.1 ++ " $" ++ padLeft ' ' 9 (fmtFixed 2 r.2.1) ++ " " ++
        (if qlt (qofInt 0) r.2.2 then "+" else "") ++ padLeft ' ' 8 (fmtFixed 2 r.2.2) ++ "%")

/-- `comparison_example`. The %-operator, `.format` and f-string renderings
of the greeting all produce the same text, so each chunk is the same
concatenation. -/
def comparison_example (_t : DT) : List String :=
  let name := "Alice"
  let age : Int := 30
  let greetLine := "Hello, " ++ name ++ "! You are " ++ toString age ++ " years old."
  ["\n" ++ eq60,
   "FORMATTING METHOD COMPARISON",
   eq60,
   "\n--- Old % formatting (avoid) ---",
   greetLine,
   "\n--- .format() method (okay but verbose) ---",
   greetLine,
   greetLine,
   greetLine,
   "\n--- f-strings (preferred, Python 3.6+) ---",
   greetLine,
   "\n✓ f-strings are:",
   "  - More readable",
   "  - Faster",
   "  - Support expressions",
   "  - Modern Python standard"]

/-- `main` of `string_formatting.py`: banner, the six topic functions in
source order, footer. -/
def main (t : DT) : List String :=
  ["\n",
   "╔" ++ repChar '═' 58 ++ "╗",
   "║" ++ repChar ' ' 12 ++ "PYTHON STRING FORMATTING GUIDE" ++ repChar ' ' 16 ++ "║",
   "╚" ++ repChar '═' 58 ++ "╝"]
  ++ basic_formatting t ++ number_formatting t ++ alignment_formatting t
  ++ advanced_formatting t ++ practical_examples t ++ comparison_example t
  ++ ["\n" ++ eq60, "FORMATTING GUIDE COMPLETE", eq60 ++ "\n"]

end StrFmt

def sampleT1 : DT := ⟨2024, 1, 15, 10, 30, 0⟩

def sampleT2 : DT := ⟨2025, 6, 1, 0, 0, 0⟩

/-- Claim C1: in `practical_examples`, the subtotal accumulated over the
three item rows is the float evaluation of `29.99*2 + 49.99 + 89.99`,
whose exact decimal value is `199.96` (and the printed subtotal is
`199.96`); the tax is `subtotal * 0.085`, exactly the double nearest
`16.9966` (exact decimal value `199.96 * 0.085 = 16.9966`), and the
printed tax line shows it formatted to two decimals as `17.00`. -/
theorem claim_C1_invoice_subtotal_tax :
    StrFmt.invoiceSubtotal =
      fadd (fadd (fadd (qofInt 0) (fmul (qofInt 2) (toDouble (dec 2999 2))))
        (toDouble (dec 4999 2))) (toDouble (dec 8999 2))
    ∧ qeq (qadd (qadd (qmul (qofInt 2) (dec 2999 2)) (dec 4999 2)) (dec 8999 2))
        (dec 19996 2) = true
    ∧ fmtFixed 2 StrFmt.invoiceSubtotal = "199.96"
    ∧ StrFmt.invoiceTax = fmul StrFmt.invoiceSubtotal (toDouble (dec 85 3))
    ∧ StrFmt.invoiceTax = toDouble (dec 169966 4)
    ∧ qeq (qmul (dec 19996 2) (dec 85 3)) (dec 169966 4) = true
    ∧ fmtFixed 2 StrFmt.invoiceTax = "17.00"
    ∧ (∀ t, (StrFmt.practical_examples t).getD 11 "" =
        padRight ' ' 42 "Tax (8.5%):" ++ " $" ++ padLeft ' ' 9 "17.00") :=
  ⟨by decide, by decide, by decide, by decide, by decide, by decide, by decide,
   fun _ => rfl⟩

/-- Claim C2: the greeting script prints `Hello, World!`, immediately then
`Welcome to Python 3.14!`, then the result of `greet "Python Learner"`
(which is `Hello, Python Learner!`), then `2 + 2 = 4`, before the
version-report chunk. -/
theorem claim_C2_hello_output :
    ∀ major minor : Nat,
      Hello.main major minor =
        ["Hello, World!",
         "Welcome to Python 3.14!",
         Hello.greet "Python Learner",
         "2 + 2 = 4",
         "\nYou are using Python " ++ toString major ++ "." ++ toString minor]
      ∧ Hello.greet "Python Learner" = "Hello, Python Learner!" :=
  fun _ _ => ⟨rfl, rfl⟩

/-- Claim C3: `demo_booleans` prints an `is falsy` label for exactly the
values of `falsy_values` (0, 0.0, empty string, empty list, empty dict,
None, False) and an `is truthy` label for exactly the values of
`truthy_values` (1, "text", [1], a one-entry dict, True), and every value
so labelled really has that truth value under Python truthiness. -/
theorem claim_C3_truthiness :
    TypesDemo.falsyValues.all (fun v => pyTruthy v == false) = true
    ∧ TypesDemo.truthyValues.all (fun v => pyTruthy v == true) = true
    ∧ TypesDemo.falsyValues =
        [.VInt 0, .VFloat (qofInt 0), .VStr "", .VList [], .VDict [], .VNone, .VBool false]
    ∧ TypesDemo.truthyValues =
        [.VInt 1, .VStr "text", .VList [.VInt 1], .VDict [("a", .VInt 1)], .VBool true]
    ∧ (∀ t, TypesDemo.demo_booleans t =
        ["\n" ++ TypesDemo.eq50,
         "BOOLEAN DEMONSTRATION",
         TypesDemo.eq50,
         "\nTrue and False = False",
         "True or False = True",
         "not True = False",
         "\n5 == 10 = False",
         "5 < 10 = True",
         "5 != 10 = True",
         "\n--- Truthiness Tests ---"]
        ++ TypesDemo.falsyValues.map (fun v => padRight ' ' 10 (pyRepr v) ++ " is falsy")
        ++ [""]
        ++ TypesDemo.truthyValues.map (fun v => padRight ' ' 10 (pyRepr v) ++ " is truthy")) :=
  ⟨by decide, by decide, rfl, rfl, fun _ => rfl⟩

/-- Claim C4: `int("42")` yields 42, `str(100)` yields `"100"`, and
`int(3.7)` truncates toward zero to 3; the type-conversion demo prints
exactly these results. -/
theorem claim_C4_type_conversion :
    pyParseInt? "42" = some 42
    ∧ pyParseFloat? "3.14" = some (toDouble (dec 314 2))
    ∧ truncInt (toDouble (dec 37 1)) = 3
    ∧ (∀ t, TypesDemo.demo_type_conversion t = some
        ["\n" ++ TypesDemo.eq50,
         "TYPE CONVERSION DEMONSTRATION",
         TypesDemo.eq50,
         "\nString " ++ sq ++ "42" ++ sq ++ " to int: 42",
         "String " ++ sq ++ "3.14" ++ sq ++ " to float: 3.14",
         "\nInt 100 to string: " ++ sq ++ "100" ++ sq,
         "\nFloat 3.7 to int: 3 (truncates)",
         "\nType of 100: <class " ++ sq ++ "int" ++ sq ++ ">",
         "Is 100 an int? True"]) :=
  ⟨by decide, by decide, by decide, fun _ => rfl⟩

/-- Claim C5: for every percentage in `range(0, 101, 10)`, the rendered
bar is exactly `i // 2` filled blocks followed by `50 - i // 2` unfilled
blocks (hence always exactly 50 characters), and each iteration emits one
chunk that starts with a carriage return, contains no newline, and shows
the percentage right-aligned in a three-character field. -/
theorem claim_C5_progress_bar :
    StrFmt.progressPercents = [0, 10, 20, 30, 40, 50, 60, 70, 80, 90, 100]
    ∧ (StrFmt.progressPercents.all (fun i =>
        StrFmt.progressBar i == repChar '█' (i / 2) ++ repChar '░' (50 - i / 2)
        && (StrFmt.progressBar i).length == 50
        && StrFmt.progressSegment i ==
            "\r[" ++ StrFmt.progressBar i ++ "] " ++ padLeft ' ' 3 (toString i) ++ "%"
        && ((StrFmt.progressSegment i).data.contains '\n' == false)
        && (StrFmt.progressSegment i).take 1 == "\r")) = true
    ∧ (∀ t, (StrFmt.practical_examples t).getD 14 "" =
        String.join (StrFmt.progressPercents.map StrFmt.progressSegment)) :=
  ⟨by decide, by decide, fun _ => rfl⟩

/-- Claim C6: every topic function of both demo suites is deterministic —
its output chunks do not depend on the ambient wall clock — except
`advanced_formatting`, which decomposes into fixed chunks around exactly
five datetime chunks (the only clock-dependent output anywhere; two
different instants really produce different output there); and each
driver `main` only concatenates its topic functions' output around fixed
banner and footer chunks, consuming no returned value. -/
theorem claim_C6_determinism :
    (∀ t t', StrFmt.basic_formatting t = StrFmt.basic_formatting t')
    ∧ (∀ t t', StrFmt.number_formatting t = StrFmt.number_formatting t')
    ∧ (∀ t t', StrFmt.alignment_formatting t = StrFmt.alignment_formatting t')
    ∧ (∀ t t', StrFmt.practical_examples t = StrFmt.practical_examples t')
    ∧ (∀ t t', StrFmt.comparison_example t = StrFmt.comparison_example t')
    ∧ (∀ t t', TypesDemo.demo_integers t = TypesDemo.demo_integers t')
    ∧ (∀ t t', TypesDemo.demo_floats t = TypesDemo.demo_floats t')
    ∧ (∀ t t', TypesDemo.demo_strings t = TypesDemo.demo_strings t')
    ∧ (∀ t t', TypesDemo.demo_booleans t = TypesDemo.demo_booleans t')
    ∧ (∀ t t', TypesDemo.demo_type_conversion t = TypesDemo.demo_type_conversion t')
    ∧ (∀ t t', TypesDemo.demo_generics t = TypesDemo.demo_generics t')
    ∧ (∃ pre post : List String, ∃ g1 g2 g3 g4 g5 : DT → String,
        (∀ t, StrFmt.advanced_formatting t = pre ++ [g1 t, g2 t, g3 t, g4 t, g5 t] ++ post)
        ∧ (∀ t, g1 t = "Full: " ++ fmtDtFull t)
        ∧ (∀ t, g2 t = "Date only: " ++ fmtDtDate t)
        ∧ (∀ t, g3 t = "Time only: " ++ fmtDtTime t)
        ∧ (∀ t, g4 t = "Custom: " ++ fmtDtCustom t)
        ∧ (∀ t, g5 t = "Weekday: " ++ weekdayName t))
    ∧ StrFmt.advanced_formatting sampleT1 ≠ StrFmt.advanced_formatting sampleT2
    ∧ (∀ t, StrFmt.main t =
        ["\n",
         "╔" ++ repChar '═' 58 ++ "╗",
         "║" ++ repChar ' ' 12 ++ "PYTHON STRING FORMATTING GUIDE" ++ repChar ' ' 16 ++ "║",
         "╚" ++ repChar '═' 58 ++ "╝"]
        ++ StrFmt.basic_formatting t ++ StrFmt.number_formatting t
        ++ StrFmt.alignment_formatting t ++ StrFmt.advanced_formatting t
        ++ StrFmt.practical_examples t ++ StrFmt.comparison_example t
        ++ ["\n" ++ StrFmt.eq60, "FORMATTING GUIDE COMPLETE", StrFmt.eq60 ++ "\n"])
    ∧ (∀ t, TypesDemo.main t =
        (TypesDemo.demo_integers t).bind fun l1 =>
        (TypesDemo.demo_floats t).bind fun l2 =>
        (TypesDemo.demo_type_conversion t).bind fun l5 =>
        (TypesDemo.demo_generics t).bind fun l6 =>
        some (["\n",
          "╔" ++ repChar '═' 48 ++ "╗",
          "║" ++ repChar ' ' 10 ++ "PYTHON TYPES DEMONSTRATION" ++ repChar ' ' 12 ++ "║",
          "╚" ++ repChar '═' 48 ++ "╝"]
          ++ l1 ++ l2 ++ TypesDemo.demo_strings t ++ TypesDemo.demo_booleans t ++ l5 ++ l6
          ++ ["\n" ++ TypesDemo.eq50, "DEMONSTRATION COMPLETE", TypesDemo.eq50 ++ "\n"])) :=
  ⟨fun _ _ => rfl, fun _ _ => rfl, fun _ _ => rfl, fun _ _ => rfl, fun _ _ => rfl,
   fun _ _ => rfl, fun _ _ => rfl, fun _ _ => rfl, fun _ _ => rfl, fun _ _ => rfl,
   fun _ _ => rfl,
   ⟨["\n" ++ StrFmt.eq60,
     "ADVANCED FORMATTING",
     StrFmt.eq60,
     "\n--- Debug Formatting (shows variable name) ---",
     "x=42",
     "y=100",
     "x + y=142",
     "\n--- Nested Formatting ---",
     "Value with 2 decimals: 123.46",
     "Value with 4 decimals: 123.4568",
     "\n--- Datetime Formatting ---"],
    ["\n--- Number Base Formatting ---",
     "Decimal: 42",
     "Binary: 101010 (or 0b101010)",
     "Octal: 52 (or 0o52)",
     "Hex (lowercase): 2a (or 0x2a)",
     "Hex (uppercase): 2A"],
    fun t => "Full: " ++ fmtDtFull t,
    fun t => "Date only: " ++ fmtDtDate t,
    fun t => "Time only: " ++ fmtDtTime t,
    fun t => "Custom: " ++ fmtDtCustom t,
    fun t => "Weekday: " ++ weekdayName t,
    fun _ => rfl, fun _ => rfl, fun _ => rfl, fun _ => rfl, fun _ => rfl, fun _ => rfl⟩,
   by decide,
   fun _ => rfl,
   fun _ => rfl⟩

/-- Claim C7: no operation in any script can fail on the inputs used —
the divisor is the nonzero 4, the string slices land inside the 18
character string, `first` is only applied to non-empty lists — so the
type-demo driver succeeds and both other scripts are total. -/
theorem claim_C7_no_failures :
    (∀ t, (TypesDemo.main t).isSome = true)
    ∧ (4 : Int) ≠ 0
    ∧ pyTrueDivInt 15 4 = some (toDouble (qdiv (qofInt 15) (qofInt 4)))
    ∧ pyFloorDivInt 15 4 = some 3
    ∧ pyModInt 15 4 = some 3
    ∧ first [(1 : Int), 2, 3] = some 1
    ∧ first ["hello", "world"] = some "hello"
    ∧ "Python Programming".length = 18
    ∧ pySliceTo 6 "Python Programming" = "Python"
    ∧ (pySliceTo 6 "Python Programming").length = 6
    ∧ pySliceFrom (-11) "Python Programming" = "Programming"
    ∧ (pySliceFrom (-11) "Python Programming").length = 11
    ∧ (∀ major minor, (Hello.main major minor).length = 5)
    ∧ (∀ t, 0 < (StrFmt.main t).length) :=
  ⟨fun _ => rfl, by decide, by decide, by decide, by decide, by decide, by decide,
   by decide, by decide, by decide, by decide, by decide,
   fun _ _ => rfl, fun _ => Nat.succ_pos _⟩

/-- Claim C8: `Box` is an identity wrapper — for every item of every
element type, `Box(item).get()` returns exactly that item — and `first`
returns the unchanged head of every non-empty list of any element type. -/
theorem claim_C8_box_identity :
    ∀ (α : Type) (x : α) (xs : List α),
      (Box.mk x).get = x ∧ first (x :: xs) = some x :=
  fun _ _ _ => ⟨rfl, rfl⟩

/-- Claim C9: `first items` fails (returns `none`, the model of
`IndexError`) exactly when `items` is empty, returns the head otherwise,
and the two call sites in `demo_generics` pass non-empty lists. -/
theorem claim_C9_first_empty_fails :
    ∀ (α : Type) (l : List α),
      (first l = none ↔ l = [])
      ∧ first ([1, 2, 3] : List Int) = some 1
      ∧ first ["hello", "world"] = some "hello" :=
  fun α l =>
    ⟨by cases l <;> simp [first, pyIndex], by decide, by decide⟩

/-- Claim C10: `demo_integers` computes the exact value
`2**100 = 1267650600228229401496703205376`, whose decimal representation
has 31 digits, and prints `Length: 31 digits`. -/
theorem claim_C10_huge_power :
    TypesDemo.huge = 1267650600228229401496703205376
    ∧ (toString TypesDemo.huge).length = 31
    ∧ (∀ t, (TypesDemo.demo_integers t).map (fun l => l.getD 11 "") =
        some ("\n2^100 = 1267650600228229401496703205376"))
    ∧ (∀ t, (TypesDemo.demo_integers t).map (fun l => l.getD 12 "") =
        some "Length: 31 digits") :=
  ⟨by decide, by decide, fun _ => rfl, fun _ => rfl⟩
